import Mathlib

/-!
Verification of the Transferbooth core against its specification.

The Python source is shallowly embedded: byte strings become `List Nat`
(each element a byte value), fallible operations return `Except`/`Option`,
mutation of shared objects becomes explicit state passing, and the
externally-provided cryptographic primitives (the `cryptography` package:
AES block cipher, Ed25519 sign/verify) appear as function parameters,
with AES-GCM itself spelled out per NIST SP 800-38D as the library
implements it.  Python `float` fields are modelled as `ℚ`.
-/

namespace TransferBooth

/-! ## config.py constants -/

def APP_ID : String := "transfer-booth-v1"

def DISCOVERY_INTERVAL : Nat := 3

def PEER_TIMEOUT : Nat := 10

def CHUNK_SIZE : Nat := 131072

/-! ## transfer/models.py -/

inductive TransferState where
  | PENDING
  | AWAITING_ACCEPTANCE
  | REJECTED
  | CONNECTING
  | TRANSFERRING
  | PAUSED
  | PAUSED_BY_PEER
  | COMPLETED
  | FAILED
  | CANCELLED
deriving DecidableEq, Repr

inductive TransferDirection where
  | SENDING
  | RECEIVING
deriving DecidableEq, Repr

/-- transfer/models.py TransferInfo.  `speed_bps`, `progress_percent` and
`eta_seconds` are Python floats; they are modelled as rationals. -/
structure TransferInfo where
  transfer_id : String
  file_name : String
  file_size : Nat
  transferred_bytes : Nat := 0
  state : TransferState := TransferState.PENDING
  direction : TransferDirection
  peer_device_id : String
  peer_device_name : String
  speed_bps : ℚ := 0
  progress_percent : ℚ := 0
  eta_seconds : ℚ := 0
  error_message : Option String := none
deriving DecidableEq, Repr

-- transfer/models.py MessageType: wire message type codes.
namespace MessageType

def HANDSHAKE_PUBKEY : Nat := 0x01
def METADATA : Nat := 0x02
def ACCEPT : Nat := 0x03
def REJECT : Nat := 0x04
def RESUME_OFFSET : Nat := 0x05
def DATA_CHUNK : Nat := 0x06
def PAUSE : Nat := 0x07
def RESUME : Nat := 0x08
def CANCEL : Nat := 0x09
def TRANSFER_COMPLETE : Nat := 0x0A

end MessageType

/-! ## transfer/service.py: wire framing

A TCP stream is a `List Nat` of pending bytes.  `recv_message` consumes a
prefix of the stream and returns the parsed message together with the rest
of the stream.  The only error `asyncio.StreamReader.readexactly` can raise
here is `IncompleteReadError` (the source defines no other failure path in
`recv_message`). -/

inductive RecvError where
  | incompleteRead
deriving DecidableEq, Repr

/-- asyncio readexactly(n): exactly n bytes, or IncompleteReadError. -/
def readexactly (n : Nat) (s : List Nat) : Except RecvError (List Nat × List Nat) :=
  if n ≤ s.length then Except.ok (s.take n, s.drop n) else Except.error RecvError.incompleteRead

/-- struct.calcsize of the header format, 1-byte type + 4-byte length. -/
def HEADER_SIZE : Nat := 5

/-- Big-endian value of a byte list (the I of an unpacked header). -/
def be32 (bs : List Nat) : Nat := bs.foldl (fun acc b => acc * 256 + b) 0

/-- transfer/service.py recv_message: read a 5-byte header, unpack the
1-byte type and 4-byte big-endian length, then read exactly that many
payload bytes.  Returns (type, payload, remaining stream).  The source
performs no check on the length field. -/
def recv_message (s : List Nat) : Except RecvError (Nat × List Nat × List Nat) :=
  match readexactly HEADER_SIZE s with
  | Except.error e => Except.error e
  | Except.ok (header, rest) =>
      let msg_type := header.headD 0
      let length := be32 (header.drop 1)
      if 0 < length then
        match readexactly length rest with
        | Except.error e => Except.error e
        | Except.ok (payload, rest2) => Except.ok (msg_type, payload, rest2)
      else
        Except.ok (msg_type, [], rest)

/-! ## transfer/service.py: receiver resume offset (receive_file step 4-5)

The receiver computes the resume offset from the size of a pre-existing
file of the requested name in save_dir (`os.path.getsize`), or 0 when no
such file exists, and then assigns it to `transferred_bytes` while
entering TRANSFERRING. -/

/-- os.path.exists / os.path.getsize combination of receive_file step 4:
the size of the pre-existing partial file, if any. -/
def resume_offset (existing_file_size : Option Nat) : Nat :=
  match existing_file_size with
  | some size => size
  | none => 0

/-- receive_file step 5: enter TRANSFERRING with transferred_bytes set to
the resume offset. -/
def receiver_set_transferring (info : TransferInfo) (offset : Nat) : TransferInfo :=
  { info with state := TransferState.TRANSFERRING, transferred_bytes := offset }

/-- The progress computation shared by send_file and receive_file:
transferred / file_size * 100 when file_size > 0, else 100. -/
def progress_percent_calc (transferred file_size : Nat) : ℚ :=
  if file_size > 0 then (transferred : ℚ) / (file_size : ℚ) * 100 else 100

/-! ## transfer/service.py and transfer/manager.py: state transitions -/

/-- The four terminal transfer states named by the specification. -/
def isTerminal (s : TransferState) : Bool :=
  s = TransferState.COMPLETED ∨ s = TransferState.FAILED ∨
    s = TransferState.CANCELLED ∨ s = TransferState.REJECTED

/-- Loop guard of the sender control reader _monitor_remote_commands
(service.py lines 136-140): continue while the state is none of
COMPLETED, FAILED, CANCELLED.  (REJECTED is absent from this guard.) -/
def monitor_remote_continue (s : TransferState) : Bool :=
  ¬ (s = TransferState.COMPLETED ∨ s = TransferState.FAILED ∨ s = TransferState.CANCELLED)

/-- Body of _monitor_remote_commands (service.py lines 150-162) applied to
one received message: the new state is assigned from the message type
alone; the source does not re-check the current state after the blocking
recv_message returns. -/
def monitor_remote_dispatch (s : TransferState) (msg : Nat) : TransferState :=
  if msg = MessageType.PAUSE then TransferState.PAUSED_BY_PEER
  else if msg = MessageType.RESUME then TransferState.TRANSFERRING
  else if msg = MessageType.CANCEL then TransferState.CANCELLED
  else s

/-- Top-of-loop check of the receiver message loop (service.py line 493):
return immediately when the state is CANCELLED. -/
def receiver_loop_returns (s : TransferState) : Bool :=
  s = TransferState.CANCELLED

/-- State assignment of one iteration of the receiver message loop
(service.py lines 496-511) for the message it has just read:
CANCEL, PAUSE and RESUME assign the state unconditionally;
TRANSFER_COMPLETE breaks, DATA_CHUNK and unknown types leave the state
alone.  As in the source, the state is not re-checked between the
blocking recv_message and this assignment. -/
def receiver_loop_dispatch (s : TransferState) (msg : Nat) : TransferState :=
  if msg = MessageType.TRANSFER_COMPLETE then s
  else if msg = MessageType.CANCEL then TransferState.CANCELLED
  else if msg = MessageType.PAUSE then TransferState.PAUSED_BY_PEER
  else if msg = MessageType.RESUME then TransferState.TRANSFERRING
  else s

/-! ## transfer/manager.py -/

/-- Python dict insert-or-replace: replacing keeps the key's position,
inserting appends. -/
def dictInsert {β : Type} (l : List (String × β)) (k : String) (v : β) : List (String × β) :=
  if l.any (fun p => p.1 = k) then
    l.map (fun p => if p.1 = k then (k, v) else p)
  else
    l ++ [(k, v)]

/-- Python dict .get: the value stored at the first (unique) matching key. -/
def dictGet {β : Type} (l : List (String × β)) (k : String) : Option β :=
  (l.find? (fun p => p.1 = k)).map (fun p => p.2)

/-- The TransferManager._transfers table. -/
def TransferTable : Type := List (String × TransferInfo)

/-- Events emitted through TransferManager._emit.  The notification
events carry the data from which the source composes its human-readable
message. -/
inductive ManagerEvent where
  | transfer_state (info : TransferInfo)
  | transfer_progress (info : TransferInfo)
  | notification (ntype : String) (file_name : String) (error_message : Option String)
deriving DecidableEq, Repr

/-- TransferManager._on_state_change: store the (mutated) info back in the
table, emit transfer_state, and additionally a notification for the four
terminal states. -/
def on_state_change (table : TransferTable) (info : TransferInfo) :
    TransferTable × List ManagerEvent :=
  (dictInsert table info.transfer_id info,
    ManagerEvent.transfer_state info ::
      (match info.state with
        | TransferState.COMPLETED => [ManagerEvent.notification "success" info.file_name none]
        | TransferState.FAILED =>
            [ManagerEvent.notification "error" info.file_name info.error_message]
        | TransferState.CANCELLED => [ManagerEvent.notification "info" info.file_name none]
        | TransferState.REJECTED => [ManagerEvent.notification "warning" info.file_name none]
        | _ => []))

/-- States from which TransferManager.cancel_transfer acts. -/
def cancellable_states : List TransferState :=
  [TransferState.PENDING, TransferState.TRANSFERRING, TransferState.PAUSED,
    TransferState.PAUSED_BY_PEER, TransferState.AWAITING_ACCEPTANCE]

/-- TransferManager.pause_transfer: act only when the id is present and
the transfer is TRANSFERRING; otherwise leave the table untouched and
emit nothing.  Returns the new table and the emitted events. -/
def pause_transfer (table : TransferTable) (transfer_id : String) :
    TransferTable × List ManagerEvent :=
  match dictGet table transfer_id with
  | none => (table, [])
  | some info =>
      if info.state = TransferState.TRANSFERRING then
        on_state_change table { info with state := TransferState.PAUSED }
      else (table, [])

/-- TransferManager.resume_transfer: act only when present and PAUSED. -/
def resume_transfer (table : TransferTable) (transfer_id : String) :
    TransferTable × List ManagerEvent :=
  match dictGet table transfer_id with
  | none => (table, [])
  | some info =>
      if info.state = TransferState.PAUSED then
        on_state_change table { info with state := TransferState.TRANSFERRING }
      else (table, [])

/-- TransferManager.cancel_transfer: act only when present and in one of
the five non-terminal states (the task-cancellation side effect also
happens only inside that branch). -/
def cancel_transfer (table : TransferTable) (transfer_id : String) :
    TransferTable × List ManagerEvent :=
  match dictGet table transfer_id with
  | none => (table, [])
  | some info =>
      if info.state ∈ cancellable_states then
        on_state_change table { info with state := TransferState.CANCELLED }
      else (table, [])

/-- The state effect of TransferManager.cancel_transfer on the looked-up
transfer's state, in isolation: used to model an external cancel racing a
transfer session. -/
def cancel_transfer_state (s : TransferState) : TransferState :=
  if s ∈ cancellable_states then TransferState.CANCELLED else s

/-- asyncio.wait_for(future, timeout=60.0) of TransferManager._prompt_accept:
the user's response when one arrived inside the window, and False on
asyncio.TimeoutError. -/
def prompt_accept_result (response : Option Bool) : Bool :=
  match response with
  | some r => r
  | none => false

/-- The timeout passed to asyncio.wait_for in _prompt_accept, in seconds. -/
def ACCEPT_TIMEOUT_SECONDS : Nat := 60

/-- receive_file step 3 (service.py lines 451-465) on the acceptance
decision: on reject, write REJECT and move to REJECTED; on accept, write
ACCEPT carrying the receiver identity payload.  Returns the messages
written (type, payload) and the updated info. -/
def receiver_accept_step (accepted : Bool) (accept_payload : List Nat)
    (info : TransferInfo) : List (Nat × List Nat) × TransferInfo :=
  if accepted then
    ([(MessageType.ACCEPT, accept_payload)], info)
  else
    ([(MessageType.REJECT, [])], { info with state := TransferState.REJECTED })

/-! ## discovery/trust.py -/

/-- discovery/trust.py TrustedPeer. -/
structure TrustedPeer where
  device_id : String
  real_name : String
  public_key_hex : String
deriving DecidableEq, Repr

/-- The observable state of a TrustStore: the in-memory `_peers` dict and
the mapping currently serialized in trusted_peers.json. -/
structure TrustStoreState where
  mem : List (String × TrustedPeer)
  file : List (String × TrustedPeer)
deriving DecidableEq, Repr

/-- TrustStore._save (trust.py lines 45-53): serialize the in-memory
mapping into the file with a single plain write_text.  The source defines
this method but nothing ever calls it. -/
def trustStore_save (st : TrustStoreState) : TrustStoreState :=
  { st with file := st.mem }

/-- TrustStore._load, as run by a fresh TrustStore(): the in-memory dict
is rebuilt from the file content. -/
def trustStore_reload (st : TrustStoreState) : TrustStoreState :=
  { st with mem := st.file }

/-- TrustStore.add_trusted_peer (trust.py lines 55-63): build the record
and insert-or-replace it in the in-memory dict.  The source does not call
_save, so the persisted file is left exactly as it was. -/
def add_trusted_peer (st : TrustStoreState) (device_id real_name public_key_hex : String) :
    TrustStoreState :=
  { st with
    mem := dictInsert st.mem device_id
      { device_id := device_id, real_name := real_name, public_key_hex := public_key_hex } }

/-! ## Hex encoding (Python bytes.hex and bytes.fromhex)

bytes.hex produces two lowercase hex digits per byte; bytes.fromhex
requires pairs of hex digits and raises ValueError otherwise (its
whitespace tolerance is irrelevant to the repository, which only feeds it
strings produced by .hex()). -/

def hexDigit (n : Nat) : Char :=
  if n < 10 then Char.ofNat (48 + n) else Char.ofNat (97 + n - 10)

def hexEncodeByte (b : Nat) : List Char :=
  [hexDigit (b / 16), hexDigit (b % 16)]

/-- Python bytes.hex(). -/
def hexEncode (bs : List Nat) : String :=
  String.mk (List.flatten (bs.map hexEncodeByte))

/-- Value of one hex digit character, if it is one. -/
def hexVal (c : Char) : Option Nat :=
  if 48 ≤ c.toNat ∧ c.toNat ≤ 57 then some (c.toNat - 48)
  else if 97 ≤ c.toNat ∧ c.toNat ≤ 102 then some (c.toNat - 97 + 10)
  else if 65 ≤ c.toNat ∧ c.toNat ≤ 70 then some (c.toNat - 65 + 10)
  else none

def hexDecodeChars : List Char → Option (List Nat)
  | [] => some []
  | [_] => none
  | c1 :: c2 :: rest =>
      match hexVal c1, hexVal c2, hexDecodeChars rest with
      | some hi, some lo, some tail => some ((hi * 16 + lo) :: tail)
      | _, _, _ => none

/-- Python bytes.fromhex(): none models the ValueError. -/
def hexDecode (s : String) : Option (List Nat) :=
  hexDecodeChars s.data

/-! ## security/crypto.py: AES-256-GCM chunk encryption

The AES block cipher itself lives in the external `cryptography` package;
it enters the embedding as a parameter `aes : key → block → block` over
16-byte blocks.  The GCM mode built on it below follows NIST SP 800-38D
for a 12-byte nonce and empty associated data, which is what
AESGCM.encrypt/AESGCM.decrypt compute. -/

def NONCE_SIZE : Nat := 12

def KEY_SIZE : Nat := 32

/-- AESGCM's default (and the library's only) tag length in bytes. -/
def TAG_SIZE : Nat := 16

inductive CryptoError where
  | invalidTag
deriving DecidableEq, Repr

/-- Pointwise XOR of two byte lists (truncates to the shorter). -/
def xorBytes (a b : List Nat) : List Nat :=
  List.zipWith Nat.xor a b

/-- Big-endian bytes of a value, fixed width. -/
def natToBytesBE (width v : Nat) : List Nat :=
  (List.range width).map (fun i => v / 256 ^ (width - 1 - i) % 256)

/-- The GCM reduction constant R (the field polynomial), as the 128-bit
big-endian value of the block e1 00 ... 00. -/
def gcmR : Nat := 0xe1000000000000000000000000000000

/-- One step of the GF(2^128) multiplication loop: examine bit i of x
(GCM bit 0 is the most significant), accumulate, and halve v modulo the
field polynomial. -/
def gfMulStep (x : Nat) (zv : Nat × Nat) (i : Nat) : Nat × Nat :=
  let z := if x.testBit (127 - i) then Nat.xor zv.1 zv.2 else zv.1
  let v := if zv.2.testBit 0 then Nat.xor (zv.2 / 2) gcmR else zv.2 / 2
  (z, v)

/-- Multiplication in GF(2^128) with the GCM polynomial, blocks as
big-endian 128-bit values. -/
def gfMul (x y : Nat) : Nat :=
  ((List.range 128).foldl (gfMulStep x) (0, y)).1

/-- GHASH over a list of 128-bit blocks with hash subkey h. -/
def ghashBlocks (h : Nat) (blocks : List Nat) : Nat :=
  blocks.foldl (fun y x => gfMul (Nat.xor y x) h) 0

/-- Split a list into consecutive pieces of n elements, the last piece
possibly shorter: the shape of both GHASH blocking and the sender's
f.read(CHUNK_SIZE) loop.  Structural recursion on a fuel bounded by the
list length (for n > 0 every piece consumes at least one element, so the
fuel never runs out first). -/
def chunksOfAux {α : Type} (n : Nat) : Nat → List α → List (List α)
  | _, [] => []
  | 0, _ :: _ => []
  | fuel + 1, x :: xs => ((x :: xs).take n) :: chunksOfAux n fuel ((x :: xs).drop n)

def chunksOf {α : Type} (n : Nat) (l : List α) : List (List α) :=
  if n = 0 then [] else chunksOfAux n l.length l

/-- inc32: increment the last 32 bits of a 16-byte block. -/
def inc32 (block : List Nat) : List Nat :=
  block.take 12 ++ natToBytesBE 4 ((be32 (block.drop 12) + 1) % 2 ^ 32)

/-- The pre-counter block J0 for a 96-bit IV: IV followed by 0^31 1. -/
def gcmJ0 (nonce : List Nat) : List Nat :=
  nonce ++ [0, 0, 0, 1]

/-- The first n bytes of the CTR keystream: CIPH applied to the counter
blocks inc32(J0), inc32^2(J0), ... -/
def gcmKeystream (aes : List Nat → List Nat → List Nat) (key nonce : List Nat)
    (n : Nat) : List Nat :=
  (List.flatten ((List.range ((n + 15) / 16)).map
    (fun i => aes key (inc32^[i + 1] (gcmJ0 nonce))))).take n

/-- GCTR encryption (its own inverse): XOR with the keystream. -/
def gcmCipher (aes : List Nat → List Nat → List Nat) (key nonce p : List Nat) : List Nat :=
  xorBytes p (gcmKeystream aes key nonce p.length)

/-- The GCM authentication tag over ciphertext c (empty associated data):
GHASH with subkey CIPH(0^128) over c zero-padded to a block boundary plus
the 64-bit bit lengths, then XORed with CIPH(J0). -/
def gcmTag (aes : List Nat → List Nat → List Nat) (key nonce c : List Nat) : List Nat :=
  let h := be32 (aes key (List.replicate 16 0))
  let pad := (16 - c.length % 16) % 16
  let u := c ++ List.replicate pad 0 ++ natToBytesBE 8 0 ++ natToBytesBE 8 (8 * c.length)
  let s := ghashBlocks h ((chunksOf 16 u).map be32)
  xorBytes (natToBytesBE 16 s) (aes key (gcmJ0 nonce))

/-- AESGCM(key).encrypt(nonce, data, None): ciphertext followed by the
16-byte tag. -/
def aesgcm_encrypt (aes : List Nat → List Nat → List Nat) (key nonce data : List Nat) :
    List Nat :=
  let c := gcmCipher aes key nonce data
  c ++ gcmTag aes key nonce c

/-- AESGCM(key).decrypt(nonce, data, None): split off the trailing 16-byte
tag, recompute it, fail on mismatch, else CTR-decrypt. -/
def aesgcm_decrypt (aes : List Nat → List Nat → List Nat) (key nonce data : List Nat) :
    Except CryptoError (List Nat) :=
  let c := data.take (data.length - TAG_SIZE)
  let t := data.drop (data.length - TAG_SIZE)
  if t = gcmTag aes key nonce c then Except.ok (gcmCipher aes key nonce c)
  else Except.error CryptoError.invalidTag

/-- security/crypto.py encrypt_chunk: a fresh 12-byte random nonce
(os.urandom, here a parameter) followed by the GCM ciphertext-with-tag. -/
def encrypt_chunk (aes : List Nat → List Nat → List Nat) (key nonce plaintext : List Nat) :
    List Nat :=
  nonce ++ aesgcm_encrypt aes key nonce plaintext

/-- security/crypto.py decrypt_chunk: first 12 bytes are the nonce, the
rest the GCM ciphertext-with-tag. -/
def decrypt_chunk (aes : List Nat → List Nat → List Nat) (key data : List Nat) :
    Except CryptoError (List Nat) :=
  let nonce := data.take NONCE_SIZE
  let ciphertext := data.drop NONCE_SIZE
  aesgcm_decrypt aes key nonce ciphertext

/-! ## discovery/models.py and discovery beacons -/

structure DiscoveryBeacon where
  app_id : String
  device_id : String
  device_name : String
  api_port : Nat
  transfer_port : Nat
  platform : String
  «alias» : String := ""
  public_id : String := ""
  auth_tag : String := ""
deriving DecidableEq, Repr

/-- TrustStore.get_signable_bytes (trust.py lines 72-77): the canonical
string over the ephemeral beacon fields.  UTF-8 encoding being injective,
the String stands for its bytes. -/
def get_signable_bytes (b : DiscoveryBeacon) : String :=
  b.app_id ++ ":" ++ b.public_id ++ ":" ++ b.«alias» ++ ":" ++
    toString b.api_port ++ ":" ++ toString b.transfer_port

/-- DiscoveryService._broadcast_loop beacon construction (service.py
lines 173-188): every field is filled from the identity's ephemeral
public_id/alias, the auth_tag starts empty, and is then set to the hex of
the identity signature over the canonical bytes of that same beacon.
`sign` abstracts IdentityService.sign, Ed25519 under the long-term key. -/
def build_broadcast_beacon (app_id : String) (api_port transfer_port : Nat)
    (platform : String) (identity_public_id identity_alias : String)
    (sign : String → List Nat) : DiscoveryBeacon :=
  let beacon : DiscoveryBeacon :=
    { app_id := app_id
      device_id := identity_public_id
      device_name := identity_alias
      api_port := api_port
      transfer_port := transfer_port
      platform := platform
      «alias» := identity_alias
      public_id := identity_public_id
      auth_tag := "" }
  { beacon with auth_tag := hexEncode (sign (get_signable_bytes beacon)) }

/-- One iteration of TrustStore.verify_peer's loop over a stored peer:
decode the stored public key hex (ValueError skips), require the 32 bytes
Ed25519PublicKey.from_public_bytes demands (ValueError skips), and check
the signature (InvalidSignature skips).  `verify` abstracts
ed25519.Ed25519PublicKey.verify: public key bytes, signature, message. -/
def peer_verifies (verify : List Nat → List Nat → String → Bool)
    (signature : List Nat) (message : String) (p : TrustedPeer) : Bool :=
  match hexDecode p.public_key_hex with
  | none => false
  | some pk => pk.length = 32 && verify pk signature message

/-- TrustStore.verify_peer (trust.py lines 79-103): None when the
auth_tag is empty; None when its hex does not decode; else the first
stored peer whose public key verifies the signature over the canonical
bytes, None when none does. -/
def verify_peer (verify : List Nat → List Nat → String → Bool)
    (peers : List TrustedPeer) (b : DiscoveryBeacon) : Option TrustedPeer :=
  if b.auth_tag = "" then none
  else
    match hexDecode b.auth_tag with
    | none => none
    | some signature =>
        peers.find? (peer_verifies verify signature (get_signable_bytes b))

/-! # Theorems -/

/-! ## Wire framing (C1) -/

lemma readexactly_append (a b : List Nat) :
    readexactly a.length (a ++ b) = Except.ok (a, b) := by
  simp [readexactly, List.take_left, List.drop_left]

lemma readexactly_of_length {n : Nat} (a b : List Nat) (h : a.length = n) :
    readexactly n (a ++ b) = Except.ok (a, b) := by
  subst h; exact readexactly_append a b

/-- recv_message on a well-formed frame whose length field matches the
payload: the frame is always parsed, whatever the length value. -/
lemma recv_message_ok (t : Nat) (lenBytes payload rest : List Nat)
    (hlen : lenBytes.length = 4) (hpay : payload.length = be32 lenBytes) :
    recv_message ((t :: lenBytes) ++ payload ++ rest) = Except.ok (t, payload, rest) := by
  have h1 : readexactly HEADER_SIZE ((t :: lenBytes) ++ (payload ++ rest)) =
      Except.ok (t :: lenBytes, payload ++ rest) :=
    readexactly_of_length _ _ (by simp [hlen, HEADER_SIZE])
  unfold recv_message
  rw [List.append_assoc, h1]
  simp only [List.headD_cons, List.drop_succ_cons, List.drop_zero]
  by_cases hpos : 0 < be32 lenBytes
  · rw [if_pos hpos, readexactly_of_length payload rest hpay]
  · rw [if_neg hpos]
    have hp0 : payload = [] := List.eq_nil_of_length_eq_zero (by omega)
    subst hp0
    rfl

/-- Claim C1 (counterexample): recv_message imposes no ceiling on the
4-byte length field.  A frame whose length field reads 16 MiB + 1
(bytes 01 00 00 01) and whose payload is that long is read and returned
in full; nothing refuses it, and the source has no ProtocolError path at
all (its only failure is an incomplete read). -/
theorem C1_counterexample :
    16 * 1024 * 1024 < be32 [1, 0, 0, 1] ∧
    recv_message ((6 :: [1, 0, 0, 1]) ++ List.replicate (be32 [1, 0, 0, 1]) 7 ++ []) =
      Except.ok (6, List.replicate (be32 [1, 0, 0, 1]) 7, []) := by
  constructor
  · norm_num [be32]
  · exact recv_message_ok 6 [1, 0, 0, 1] (List.replicate (be32 [1, 0, 0, 1]) 7) []
      (by norm_num) (by simp)

/-- Claim C1 (amended): the reader enforces no ceiling.  For every frame
whose 4-byte big-endian length field matches the payload present on the
stream - lengths above 16 MiB included - recv_message returns the type
and the fully-read payload; its only failure mode is a truncated stream
(IncompleteReadError), and no ProtocolError exists in recv_message. -/
theorem C1_amended (t : Nat) (lenBytes payload rest : List Nat)
    (hlen : lenBytes.length = 4) (hpay : payload.length = be32 lenBytes) :
    recv_message ((t :: lenBytes) ++ payload ++ rest) = Except.ok (t, payload, rest) :=
  recv_message_ok t lenBytes payload rest hlen hpay

theorem C1_amended_witness :
    ([0, 0, 0, 2] : List Nat).length = 4 ∧ ([9, 9] : List Nat).length = be32 [0, 0, 0, 2] ∧
    recv_message ((6 :: [0, 0, 0, 2]) ++ [9, 9] ++ [1]) = Except.ok (6, [9, 9], [1]) :=
  ⟨by norm_num, by norm_num [be32],
    C1_amended 6 [0, 0, 0, 2] [9, 9] [1] (by norm_num) (by norm_num [be32])⟩

/-! ## Receiver resume offset and the progress invariant (C2) -/

def infoC2 : TransferInfo :=
  { transfer_id := "t1", file_name := "f.bin", file_size := 5,
    direction := TransferDirection.RECEIVING,
    peer_device_id := "peer", peer_device_name := "Peer" }

/-- Claim C2 (counterexample): the receiver adopts the size of any
pre-existing file of the same name as the resume offset and assigns it to
transferred_bytes with no comparison against file_size.  With an incoming
file of 5 bytes and a pre-existing file of 10 bytes, transferred_bytes
becomes 10 > 5 immediately after the assignment, and the progress
computation on those counters yields 200 > 100. -/
theorem C2_counterexample :
    (receiver_set_transferring infoC2 (resume_offset (some 10))).file_size <
      (receiver_set_transferring infoC2 (resume_offset (some 10))).transferred_bytes ∧
    100 < progress_percent_calc
      (receiver_set_transferring infoC2 (resume_offset (some 10))).transferred_bytes
      (receiver_set_transferring infoC2 (resume_offset (some 10))).file_size := by
  constructor
  · norm_num [receiver_set_transferring, resume_offset, infoC2]
  · norm_num [receiver_set_transferring, resume_offset, infoC2, progress_percent_calc]

/-- Claim C2 (amended): the invariant 0 ≤ transferred_bytes ≤ file_size
and progress_percent ∈ [0,100] holds at the receiver's resume-offset
assignment provided the pre-existing partial file is no larger than
file_size (and always when no partial file exists, offset 0); the code
performs no such check, so a larger pre-existing file violates it. -/
theorem C2_amended (info : TransferInfo) (psize : Nat) (h : psize ≤ info.file_size) :
    (receiver_set_transferring info (resume_offset (some psize))).transferred_bytes ≤
      (receiver_set_transferring info (resume_offset (some psize))).file_size ∧
    0 ≤ progress_percent_calc
      (receiver_set_transferring info (resume_offset (some psize))).transferred_bytes
      (receiver_set_transferring info (resume_offset (some psize))).file_size ∧
    progress_percent_calc
      (receiver_set_transferring info (resume_offset (some psize))).transferred_bytes
      (receiver_set_transferring info (resume_offset (some psize))).file_size ≤ 100 ∧
    (receiver_set_transferring info (resume_offset none)).transferred_bytes = 0 := by
  refine ⟨h, ?_, ?_, rfl⟩
  · unfold progress_percent_calc
    split <;> positivity
  · by_cases hs : 0 < info.file_size
    · simp only [receiver_set_transferring, resume_offset, progress_percent_calc, hs, if_pos]
      rw [div_mul_eq_mul_div, div_le_iff₀ (by exact_mod_cast hs)]
      have hc : (psize : ℚ) ≤ (info.file_size : ℚ) := by exact_mod_cast h
      nlinarith
    · simp [receiver_set_transferring, resume_offset, progress_percent_calc, hs]

theorem C2_amended_witness :
    3 ≤ infoC2.file_size ∧
    (receiver_set_transferring infoC2 (resume_offset (some 3))).transferred_bytes ≤
      (receiver_set_transferring infoC2 (resume_offset (some 3))).file_size :=
  ⟨by norm_num [infoC2], (C2_amended infoC2 3 (by norm_num [infoC2])).1⟩

/-! ## Trust store persistence (C3) -/

/-- Claim C3 (code bug): add_trusted_peer updates only the in-memory
mapping.  TrustStore._save exists for exactly the rewrite the claim
describes, but no code path ever calls it (and it would write with a
plain write_text, not an atomic replace).  Evaluated at the failing
input: adding a peer to a fresh empty store leaves trusted_peers.json
empty, so after a reload the record is gone. -/
theorem C3_code_bug :
    (add_trusted_peer { mem := [], file := [] } "d1" "Alice" "aabb").mem =
      [("d1", { device_id := "d1", real_name := "Alice", public_key_hex := "aabb" })] ∧
    (add_trusted_peer { mem := [], file := [] } "d1" "Alice" "aabb").file = [] ∧
    dictGet (trustStore_reload (add_trusted_peer { mem := [], file := [] } "d1" "Alice" "aabb")).mem
      "d1" = none ∧
    dictGet (trustStore_reload (trustStore_save
      (add_trusted_peer { mem := [], file := [] } "d1" "Alice" "aabb"))).mem "d1" =
      some { device_id := "d1", real_name := "Alice", public_key_hex := "aabb" } := by
  refine ⟨?_, rfl, rfl, ?_⟩ <;>
    simp [add_trusted_peer, trustStore_save, trustStore_reload, dictInsert, dictGet]

/-! ## Terminal states (C4) -/

/-- Claim C4 (counterexample): an interleaving reachable in the source
leaves a terminal state.  While the receiver loop is blocked inside
recv_message, TransferManager.cancel_transfer (running in another task;
receive sessions have no entry in _tasks, so only the state is set)
moves a PAUSED_BY_PEER transfer to the terminal CANCELLED; the loop then
dispatches the RESUME that was already in flight and assigns
TRANSFERRING, a non-terminal state, because the handler never re-checks
the state after the read.  The sender-side control reader has the same
shape: it assigns PAUSED_BY_PEER on a PAUSE read concurrently with the
main loop setting COMPLETED. -/
theorem C4_counterexample :
    cancel_transfer_state TransferState.PAUSED_BY_PEER = TransferState.CANCELLED ∧
    isTerminal TransferState.CANCELLED = true ∧
    receiver_loop_dispatch TransferState.CANCELLED MessageType.RESUME =
      TransferState.TRANSFERRING ∧
    isTerminal TransferState.TRANSFERRING = false ∧
    monitor_remote_dispatch TransferState.COMPLETED MessageType.PAUSE =
      TransferState.PAUSED_BY_PEER ∧
    isTerminal TransferState.PAUSED_BY_PEER = false := by
  decide

/-- Claim C4 (amended): terminal states stop the loops only at their
guard checks, and only messages other than PAUSE/RESUME/CANCEL leave the
state unchanged.  Concretely: the sender control reader's guard halts it
on COMPLETED, FAILED and CANCELLED (REJECTED is absent from that guard);
the receiver loop returns when it observes CANCELLED at the top of an
iteration; and both dispatch handlers preserve any state - terminal ones
included - when the message read is not PAUSE, RESUME or CANCEL.  A
PAUSE/RESUME/CANCEL dispatched after the state turned terminal
overwrites it, as the counterexample shows. -/
theorem C4_amended (s : TransferState) (msg : Nat) :
    (s = TransferState.COMPLETED ∨ s = TransferState.FAILED ∨ s = TransferState.CANCELLED →
      monitor_remote_continue s = false) ∧
    receiver_loop_returns TransferState.CANCELLED = true ∧
    (msg ≠ MessageType.PAUSE → msg ≠ MessageType.RESUME → msg ≠ MessageType.CANCEL →
      monitor_remote_dispatch s msg = s ∧ receiver_loop_dispatch s msg = s) := by
  refine ⟨?_, rfl, ?_⟩
  · intro h
    rcases h with h | h | h <;> subst h <;> decide
  · intro h1 h2 h3
    constructor <;> simp [monitor_remote_dispatch, receiver_loop_dispatch, h1, h2, h3]

theorem C4_amended_witness :
    monitor_remote_continue TransferState.CANCELLED = false ∧
    monitor_remote_dispatch TransferState.CANCELLED MessageType.DATA_CHUNK =
      TransferState.CANCELLED ∧
    receiver_loop_dispatch TransferState.FAILED MessageType.DATA_CHUNK =
      TransferState.FAILED :=
  ⟨(C4_amended TransferState.CANCELLED MessageType.DATA_CHUNK).1 (Or.inr (Or.inr rfl)),
    ((C4_amended TransferState.CANCELLED MessageType.DATA_CHUNK).2.2
      (by decide) (by decide) (by decide)).1,
    ((C4_amended TransferState.FAILED MessageType.DATA_CHUNK).2.2
      (by decide) (by decide) (by decide)).2⟩

/-! ## Acceptance timeout (C9) -/

/-- Claim C9: the acceptance prompt waits with a 60-second timeout; when
no user response arrives the wait resolves to False, upon which the
receiver writes a single REJECT message with empty payload and moves the
transfer to REJECTED. -/
theorem C9_accept_timeout (info : TransferInfo) (accept_payload : List Nat) :
    ACCEPT_TIMEOUT_SECONDS = 60 ∧
    prompt_accept_result none = false ∧
    (receiver_accept_step (prompt_accept_result none) accept_payload info).1 =
      [(MessageType.REJECT, [])] ∧
    (receiver_accept_step (prompt_accept_result none) accept_payload info).2.state =
      TransferState.REJECTED :=
  ⟨rfl, rfl, rfl, rfl⟩

/-! ## Manager no-ops (C10) -/

/-- Claim C10: pause_transfer, resume_transfer and cancel_transfer are
total (nothing raises) and, when the transfer_id is absent from the table
or its transfer's state is not one the operation acts on (pause needs
TRANSFERRING, resume needs PAUSED, cancel needs one of the five
non-terminal states), they return the table unchanged and emit no
event. -/
theorem C10_noop (table : TransferTable) (tid : String) :
    (dictGet table tid = none →
      pause_transfer table tid = (table, []) ∧
      resume_transfer table tid = (table, []) ∧
      cancel_transfer table tid = (table, [])) ∧
    (∀ info, dictGet table tid = some info →
      (info.state ≠ TransferState.TRANSFERRING → pause_transfer table tid = (table, [])) ∧
      (info.state ≠ TransferState.PAUSED → resume_transfer table tid = (table, [])) ∧
      (info.state ∉ cancellable_states → cancel_transfer table tid = (table, []))) := by
  constructor
  · intro h
    refine ⟨?_, ?_, ?_⟩ <;> simp [pause_transfer, resume_transfer, cancel_transfer, h]
  · intro info h
    refine ⟨fun hs => ?_, fun hs => ?_, fun hs => ?_⟩
    · simp [pause_transfer, h, hs]
    · simp [resume_transfer, h, hs]
    · simp [cancel_transfer, h, hs]

def infoC10 : TransferInfo :=
  { transfer_id := "t1", file_name := "f.bin", file_size := 5,
    state := TransferState.COMPLETED,
    direction := TransferDirection.SENDING,
    peer_device_id := "peer", peer_device_name := "Peer" }

def tableC10 : TransferTable := [("t1", infoC10)]

theorem C10_noop_witness :
    pause_transfer tableC10 "t2" = (tableC10, []) ∧
    cancel_transfer tableC10 "t1" = (tableC10, []) :=
  ⟨((C10_noop tableC10 "t2").1 (by simp [tableC10, dictGet, infoC10])).1,
    ((C10_noop tableC10 "t1").2 infoC10 (by simp [tableC10, dictGet])).2.2
      (by simp [infoC10, cancellable_states])⟩

/-! ## AES-GCM round trip and lengths (C5, C6) -/

lemma flatten_map_length_const (f : Nat → List Nat) (h : ∀ i, (f i).length = 16) (m : Nat) :
    (List.flatten ((List.range m).map f)).length = 16 * m := by
  induction m with
  | zero => simp
  | succ k ih =>
      rw [List.range_succ]
      simp only [List.map_append, List.flatten_append, List.length_append, ih, List.map_cons,
        List.map_nil, List.flatten_cons, List.flatten_nil, List.append_nil, h]
      ring

lemma gcmKeystream_length (aes : List Nat → List Nat → List Nat)
    (hE : ∀ k b, (aes k b).length = 16) (key nonce : List Nat) (n : Nat) :
    (gcmKeystream aes key nonce n).length = n := by
  unfold gcmKeystream
  rw [List.length_take, flatten_map_length_const _ (fun i => hE key _) _]
  exact Nat.min_eq_left (by omega)

lemma gcmCipher_length (aes : List Nat → List Nat → List Nat)
    (hE : ∀ k b, (aes k b).length = 16) (key nonce p : List Nat) :
    (gcmCipher aes key nonce p).length = p.length := by
  unfold gcmCipher xorBytes
  rw [List.length_zipWith, gcmKeystream_length aes hE key nonce p.length, Nat.min_self]

lemma natToBytesBE_length (width v : Nat) : (natToBytesBE width v).length = width := by
  simp [natToBytesBE]

lemma gcmTag_length (aes : List Nat → List Nat → List Nat)
    (hE : ∀ k b, (aes k b).length = 16) (key nonce c : List Nat) :
    (gcmTag aes key nonce c).length = 16 := by
  simp [gcmTag, xorBytes, natToBytesBE_length, hE]

lemma xorBytes_cancel (p ks : List Nat) (h : ks.length = p.length) :
    xorBytes (xorBytes p ks) ks = p := by
  induction p generalizing ks with
  | nil => simp [xorBytes]
  | cons a as ih =>
      cases ks with
      | nil => simp at h
      | cons k ks' =>
          simp only [xorBytes, List.zipWith_cons_cons, List.cons.injEq]
          refine ⟨?_, ?_⟩
          · show a ^^^ k ^^^ k = a
            rw [Nat.xor_assoc, Nat.xor_self, Nat.xor_zero]
          · exact ih ks' (by simpa using h)

lemma gcmCipher_involutive (aes : List Nat → List Nat → List Nat)
    (hE : ∀ k b, (aes k b).length = 16) (key nonce p : List Nat) :
    gcmCipher aes key nonce (gcmCipher aes key nonce p) = p := by
  rw [show gcmCipher aes key nonce (gcmCipher aes key nonce p) =
    xorBytes (gcmCipher aes key nonce p)
      (gcmKeystream aes key nonce (gcmCipher aes key nonce p).length) from rfl]
  rw [gcmCipher_length aes hE key nonce p]
  rw [show gcmCipher aes key nonce p = xorBytes p (gcmKeystream aes key nonce p.length) from rfl]
  exact xorBytes_cancel p _ (gcmKeystream_length aes hE key nonce p.length)

lemma aesgcm_roundtrip (aes : List Nat → List Nat → List Nat)
    (hE : ∀ k b, (aes k b).length = 16) (key nonce p : List Nat) :
    aesgcm_decrypt aes key nonce (aesgcm_encrypt aes key nonce p) = Except.ok p := by
  unfold aesgcm_encrypt aesgcm_decrypt
  rw [List.length_append, gcmTag_length aes hE key nonce _]
  have h1 : (gcmCipher aes key nonce p).length + 16 - TAG_SIZE =
      (gcmCipher aes key nonce p).length := by simp [TAG_SIZE]
  rw [h1, List.take_left, List.drop_left, if_pos rfl]
  exact congrArg Except.ok (gcmCipher_involutive aes hE key nonce p)

/-- Claim C5: for every key, nonce and plaintext, decrypting an
encrypt_chunk output with the same key recovers the plaintext exactly.
The AES block cipher of the external library is an arbitrary parameter
producing 16-byte blocks; the nonce (os.urandom(12) in the source) is
any 12-byte value. -/
theorem C5_roundtrip (aes : List Nat → List Nat → List Nat)
    (hE : ∀ k b, (aes k b).length = 16) (key nonce p : List Nat)
    (hn : nonce.length = NONCE_SIZE) :
    decrypt_chunk aes key (encrypt_chunk aes key nonce p) = Except.ok p := by
  unfold decrypt_chunk encrypt_chunk
  rw [List.take_left' hn, List.drop_left' hn]
  exact aesgcm_roundtrip aes hE key nonce p

def aesC5 : List Nat → List Nat → List Nat := fun _ _ => List.replicate 16 0

def nonceC5 : List Nat := List.replicate 12 0

theorem C5_roundtrip_witness :
    (∀ k b, (aesC5 k b).length = 16) ∧ nonceC5.length = NONCE_SIZE ∧
    decrypt_chunk aesC5 [] (encrypt_chunk aesC5 [] nonceC5 [1, 2, 3]) = Except.ok [1, 2, 3] :=
  ⟨fun _ _ => rfl, rfl,
    C5_roundtrip aesC5 (fun _ _ => rfl) [] nonceC5 [1, 2, 3] rfl⟩

lemma chunksOfAux_mem_length_le {α : Type} (n : Nat) :
    ∀ (fuel : Nat) (l : List α), ∀ c ∈ chunksOfAux n fuel l, c.length ≤ n := by
  intro fuel
  induction fuel with
  | zero =>
      intro l c hc
      cases l <;> simp [chunksOfAux] at hc
  | succ k ih =>
      intro l c hc
      cases l with
      | nil => simp [chunksOfAux] at hc
      | cons x xs =>
          simp only [chunksOfAux, List.mem_cons] at hc
          rcases hc with hc | hc
          · subst hc; exact List.length_take_le n (x :: xs)
          · exact ih _ c hc

lemma chunksOf_mem_length_le {α : Type} (n : Nat) (l : List α) :
    ∀ c ∈ chunksOf n l, c.length ≤ n := by
  intro c hc
  unfold chunksOf at hc
  split at hc
  · simp at hc
  · exact chunksOfAux_mem_length_le n l.length l c hc

/-- Claim C6: every DATA_CHUNK payload the sender produces is the
plaintext chunk length plus NONCE_SIZE (12) plus TAG_SIZE (16) bytes
long, and every chunk the send loop reads (f.read(CHUNK_SIZE), modelled
by chunksOf CHUNK_SIZE) is at most CHUNK_SIZE = 131072 bytes. -/
theorem C6_chunk_lengths (aes : List Nat → List Nat → List Nat)
    (hE : ∀ k b, (aes k b).length = 16) (key nonce file_bytes chunk : List Nat)
    (hn : nonce.length = NONCE_SIZE)
    (hc : chunk ∈ chunksOf CHUNK_SIZE file_bytes) :
    (encrypt_chunk aes key nonce chunk).length = chunk.length + NONCE_SIZE + TAG_SIZE ∧
    chunk.length ≤ CHUNK_SIZE := by
  constructor
  · unfold encrypt_chunk aesgcm_encrypt
    rw [List.length_append, List.length_append,
      gcmCipher_length aes hE key nonce chunk, gcmTag_length aes hE key nonce _, hn]
    simp only [NONCE_SIZE, TAG_SIZE]
    omega
  · exact chunksOf_mem_length_le CHUNK_SIZE file_bytes chunk hc

def aesC6 : List Nat → List Nat → List Nat := fun _ _ => List.replicate 16 1

def nonceC6 : List Nat := List.replicate 12 2

theorem C6_chunk_lengths_witness :
    (∀ k b, (aesC6 k b).length = 16) ∧ nonceC6.length = NONCE_SIZE ∧
    [1, 2, 3] ∈ chunksOf CHUNK_SIZE [1, 2, 3] ∧
    (encrypt_chunk aesC6 [] nonceC6 [1, 2, 3]).length = 3 + NONCE_SIZE + TAG_SIZE ∧
    ([1, 2, 3] : List Nat).length ≤ CHUNK_SIZE :=
  ⟨fun _ _ => rfl, rfl, by decide,
    (C6_chunk_lengths aesC6 (fun _ _ => rfl) [] nonceC6 [1, 2, 3] [1, 2, 3] rfl (by decide)).1,
    (C6_chunk_lengths aesC6 (fun _ _ => rfl) [] nonceC6 [1, 2, 3] [1, 2, 3] rfl (by decide)).2⟩

/-! ## Hex round trip, beacons and verify_peer (C7, C8) -/

lemma hexVal_hexDigit (n : Nat) (h : n < 16) : hexVal (hexDigit n) = some n := by
  interval_cases n <;> decide

lemma hexDecodeChars_encode (bs : List Nat) (h : ∀ x ∈ bs, x < 256) :
    hexDecodeChars (List.flatten (bs.map hexEncodeByte)) = some bs := by
  induction bs with
  | nil => rfl
  | cons b rest ih =>
      have hb : b < 256 := h b (List.mem_cons_self b rest)
      have h1 : hexVal (hexDigit (b / 16)) = some (b / 16) := hexVal_hexDigit _ (by omega)
      have h2 : hexVal (hexDigit (b % 16)) = some (b % 16) := hexVal_hexDigit _ (by omega)
      have h3 := ih (fun x hx => h x (List.mem_cons_of_mem b hx))
      have hhead : List.flatten ((b :: rest).map hexEncodeByte) =
          hexDigit (b / 16) :: hexDigit (b % 16) :: List.flatten (rest.map hexEncodeByte) := by
        simp [hexEncodeByte]
      rw [hhead]
      simp only [hexDecodeChars, h1, h2, h3]
      have hbb : b / 16 * 16 + b % 16 = b := by omega
      rw [hbb]

lemma hexDecode_hexEncode (bs : List Nat) (h : ∀ x ∈ bs, x < 256) :
    hexDecode (hexEncode bs) = some bs :=
  hexDecodeChars_encode bs h

/-- Claim C7: every beacon built by the broadcast loop carries an
auth_tag that is the hex encoding of the identity signature over the
canonical string of that very beacon's fields (the canonical string
ignores auth_tag, so signing the pre-beacon and reading the sent beacon
agree), hence verification of the decoded tag against the device's own
key succeeds.  `sign` abstracts IdentityService.sign and `verify`
abstracts ed25519_verify applied to this device's public key; the sole
cryptographic assumptions are that signatures are byte strings and that
Ed25519 verification accepts honestly produced signatures. -/
theorem C7_beacon_signed (sign : String → List Nat) (verify : List Nat → String → Bool)
    (hbytes : ∀ m, ∀ x ∈ sign m, x < 256)
    (hcorrect : ∀ m, verify (sign m) m = true)
    (app_id platform identity_public_id identity_alias : String)
    (api_port transfer_port : Nat) :
    hexDecode (build_broadcast_beacon app_id api_port transfer_port platform
        identity_public_id identity_alias sign).auth_tag =
      some (sign (get_signable_bytes (build_broadcast_beacon app_id api_port transfer_port
        platform identity_public_id identity_alias sign))) ∧
    (hexDecode (build_broadcast_beacon app_id api_port transfer_port platform
        identity_public_id identity_alias sign).auth_tag).map
      (fun sig => verify sig (get_signable_bytes (build_broadcast_beacon app_id api_port
        transfer_port platform identity_public_id identity_alias sign))) = some true := by
  have hdec : hexDecode (build_broadcast_beacon app_id api_port transfer_port platform
      identity_public_id identity_alias sign).auth_tag =
      some (sign (get_signable_bytes (build_broadcast_beacon app_id api_port transfer_port
        platform identity_public_id identity_alias sign))) :=
    hexDecode_hexEncode _ (hbytes _)
  refine ⟨hdec, ?_⟩
  rw [hdec, Option.map_some']
  rw [hcorrect]

def signC7 : String → List Nat := fun _ => [7]

def verifyC7 : List Nat → String → Bool := fun _ _ => true

theorem C7_beacon_signed_witness :
    (∀ m, ∀ x ∈ signC7 m, x < 256) ∧ (∀ m, verifyC7 (signC7 m) m = true) ∧
    (hexDecode (build_broadcast_beacon "transfer-booth-v1" 8765 50001 "linux" "pid" "Neon Fox"
        signC7).auth_tag).map
      (fun sig => verifyC7 sig (get_signable_bytes (build_broadcast_beacon "transfer-booth-v1"
        8765 50001 "linux" "pid" "Neon Fox" signC7))) = some true :=
  ⟨fun _ x hx => by simp [signC7] at hx; omega, fun _ => rfl,
    (C7_beacon_signed signC7 verifyC7 (fun _ x hx => by simp [signC7] at hx; omega)
      (fun _ => rfl) "transfer-booth-v1" "linux" "pid" "Neon Fox" 8765 50001).2⟩

lemma find?_first {α : Type} (p : α → Bool) :
    ∀ (l : List α) (a : α), l.find? p = some a →
      ∃ pre post, l = pre ++ a :: post ∧ p a = true ∧ ∀ x ∈ pre, p x = false := by
  intro l
  induction l with
  | nil => intro a h; simp at h
  | cons x xs ih =>
      intro a h
      by_cases hx : p x = true
      · rw [List.find?_cons_of_pos xs hx] at h
        obtain rfl : x = a := by injection h
        exact ⟨[], xs, rfl, hx, by simp⟩
      · rw [List.find?_cons_of_neg xs (by simpa using hx)] at h
        obtain ⟨pre, post, heq, hpa, hpre⟩ := ih a h
        refine ⟨x :: pre, post, by rw [heq, List.cons_append], hpa, ?_⟩
        intro y hy
        rcases List.mem_cons.mp hy with rfl | hy
        · simpa using hx
        · exact hpre y hy

/-- Claim C8: verify_peer returns None when the beacon's auth_tag is
missing (empty) or its hex does not decode; otherwise it equals a linear
find over the stored peers with the per-peer check (stored key decodes
to 32 bytes and verifies the signature over the canonical bytes),
returning the first verifying peer and None when no stored peer
verifies. -/
theorem C8_verify_peer (verify : List Nat → List Nat → String → Bool)
    (peers : List TrustedPeer) (b : DiscoveryBeacon) :
    (b.auth_tag = "" → verify_peer verify peers b = none) ∧
    (hexDecode b.auth_tag = none → verify_peer verify peers b = none) ∧
    (∀ signature, b.auth_tag ≠ "" → hexDecode b.auth_tag = some signature →
      verify_peer verify peers b =
        peers.find? (peer_verifies verify signature (get_signable_bytes b)) ∧
      ((∀ p ∈ peers, peer_verifies verify signature (get_signable_bytes b) p = false) →
        verify_peer verify peers b = none) ∧
      (∀ p, verify_peer verify peers b = some p →
        ∃ pre post, peers = pre ++ p :: post ∧
          peer_verifies verify signature (get_signable_bytes b) p = true ∧
          ∀ q ∈ pre, peer_verifies verify signature (get_signable_bytes b) q = false)) := by
  refine ⟨?_, ?_, ?_⟩
  · intro h; simp [verify_peer, h]
  · intro h
    unfold verify_peer
    split
    · rfl
    · rw [h]
  · intro signature hne hdec
    have hvp : verify_peer verify peers b =
        peers.find? (peer_verifies verify signature (get_signable_bytes b)) := by
      unfold verify_peer
      rw [if_neg hne, hdec]
    refine ⟨hvp, ?_, ?_⟩
    · intro hall
      rw [hvp, List.find?_eq_none]
      intro x hx
      simp [hall x hx]
    · intro p hp
      rw [hvp] at hp
      exact find?_first _ peers p hp

def verifyC8 : List Nat → List Nat → String → Bool := fun _ _ _ => true

def peerC8 : TrustedPeer :=
  { device_id := "d1", real_name := "Alice",
    public_key_hex := String.mk (List.replicate 64 (Char.ofNat 97)) }

def beaconC8 : DiscoveryBeacon :=
  { app_id := "transfer-booth-v1", device_id := "pid", device_name := "Neon Fox",
    api_port := 8765, transfer_port := 50001, platform := "linux",
    «alias» := "Neon Fox", public_id := "pid", auth_tag := "0a0b" }

theorem C8_verify_peer_witness :
    verify_peer verifyC8 [peerC8] { beaconC8 with auth_tag := "" } = none ∧
    verify_peer verifyC8 [peerC8] { beaconC8 with auth_tag := "zz" } = none ∧
    verify_peer verifyC8 [peerC8] beaconC8 =
      List.find? (peer_verifies verifyC8 [10, 11] (get_signable_bytes beaconC8)) [peerC8] :=
  ⟨(C8_verify_peer verifyC8 [peerC8] { beaconC8 with auth_tag := "" }).1 rfl,
    (C8_verify_peer verifyC8 [peerC8] { beaconC8 with auth_tag := "zz" }).2.1 (by decide),
    ((C8_verify_peer verifyC8 [peerC8] beaconC8).2.2 [10, 11] (by decide) (by decide)).1⟩

end TransferBooth
